import Mathlib

/-!
Shallow embedding of the chat-bot question-answering service
(src/chat-bot/chat-bot.py) and verification of its specification.

The pure helper functions (grade_question, grade_document, generate_answer,
create_model) and the /chat request handler are translated directly from the
source.  Python string operations (str.lower, str.strip, str.split, the
substring test `in`) are modelled by executable functions on the character
lists underlying Lean strings.  External capabilities (the vector store
similarity search and the text-completion model) are passed in as functions,
and the handler returns, besides its HTTP response, a trace of the capability
invocations it performs, so that claims of the form "no retrieval or
generation happens" become statements about that trace.
-/

set_option autoImplicit false

namespace ChatBot

/-- Python str.lower(): lowercase every character. -/
def pyLower (s : String) : String :=
  ⟨s.data.map Char.toLower⟩

/-- Python str.strip(): drop leading and trailing whitespace. -/
def pyStrip (s : String) : String :=
  ⟨((s.data.dropWhile Char.isWhitespace).reverse.dropWhile Char.isWhitespace).reverse⟩

/-- Tokenizer behind Python str.split() with no argument: walk the
characters keeping an accumulator of the current (reversed) token;
whitespace ends the current token, and empty tokens are never produced. -/
def pyTokens : List Char → List Char → List (List Char)
  | [], acc => if acc.isEmpty then [] else [acc.reverse]
  | c :: cs, acc =>
    if c.isWhitespace then
      if acc.isEmpty then pyTokens cs [] else acc.reverse :: pyTokens cs []
    else
      pyTokens cs (c :: acc)

/-- Python str.split() with no argument: split on whitespace runs, never
yielding empty tokens. -/
def pySplit (s : String) : List String :=
  (pyTokens s.data []).map (fun t => ⟨t⟩)

/-- Python substring membership, needle in hay: the needle occurs as a
contiguous substring of hay. -/
def containsSubstr (hay needle : String) : Bool :=
  decide (needle.data <:+: hay.data)

/-- A retrieved document chunk; mirrors the langchain Document objects that
flow through the pipeline, of which the code only ever reads page_content. -/
structure Doc where
  page_content : String
deriving DecidableEq

/-- The language-model client returned by create_model; the only observable
configuration the code sets is the generation temperature. -/
structure Model where
  temperature : Nat
deriving DecidableEq

/-- create_model: OpenAI(temperature=0, ...). -/
def create_model : Model := ⟨0⟩

/-- grade_question: returns "continue" when the lowercased question contains
"software", "coding" or "interview", else "exit". -/
def grade_question (question : String) : String :=
  let lower_q := pyLower question
  if containsSubstr lower_q "software" || containsSubstr lower_q "coding" ||
      containsSubstr lower_q "interview" then
    "continue"
  else
    "exit"

/-- grade_document: returns "yes" when any whitespace token of the lowercased
question occurs in the lowercased page content, else "no". -/
def grade_document (question : String) (doc : Doc) : String :=
  if (pySplit (pyLower question)).any
      (fun word => containsSubstr (pyLower doc.page_content) word) then
    "yes"
  else
    "no"

/-- One observable capability invocation made while handling a request. -/
inductive Effect where
  | retrieve (query : String)
  | complete (prompt : String) (temperature : Nat)
deriving DecidableEq

/-- generate_answer: joins the documents with blank lines into a context
block, builds the single prompt, and invokes the completion model once with
it at the temperature the model was created with. -/
def generate_answer (complete : String → Nat → String) (question : String)
    (docs : List Doc) (model : Model) : String × List Effect :=
  let context := String.intercalate "\n\n" (docs.map (fun d => d.page_content))
  let prompt := "Using the following context, answer the question.\n\n" ++
    "Context:\n" ++ context ++ "\n\n" ++ "Question: " ++ question ++ "\n" ++
    "Answer:"
  (complete prompt model.temperature, [Effect.complete prompt model.temperature])

/-- A JSON response body: either an answer payload or an error payload. -/
inductive Payload where
  | answerPayload (answer : String)
  | errorPayload (error : String)
deriving DecidableEq

/-- A response: JSON body plus HTTP status code. -/
structure HttpResponse where
  payload : Payload
  status : Nat
deriving DecidableEq

/-- The fixed out-of-domain advisory string the handler returns when the
query gate says exit. -/
def outOfDomainMsg : String :=
  "The question does not seem relevant to the Software Engineering and " ++
  "Coding Interview domain. Please ask a relevant question!"

/-- The fixed advisory string the handler returns when no retrieved document
survives the document gate. -/
def noRelevantMsg : String :=
  "No relevant documents were found. Please try a different question " ++
  "related to Software Engineering or Coding Interviews."

/-- The document-filtering loop of the handler (step 5): walk the retrieved
documents in order, appending those graded "yes". -/
def filterRelevant (question : String) (retrieved : List Doc) : List Doc :=
  retrieved.foldl
    (fun acc doc =>
      if pyLower (pyStrip (grade_document question doc)) = "yes" then acc ++ [doc]
      else acc)
    []

/-- The /chat request handler.  store is the global vector_store slot (none
is the unbuilt sentinel, some search is a built store whose similarity
search is the function search); complete is the text-completion capability;
question is the request field (none when missing).  Returns the HTTP
response and the trace of retrieval and completion invocations. -/
def chat (store : Option (String → List Doc)) (complete : String → Nat → String)
    (question : Option String) : HttpResponse × List Effect :=
  match question with
  | none => (⟨Payload.errorPayload "No question provided", 400⟩, [])
  | some q =>
    if q = "" then
      (⟨Payload.errorPayload "No question provided", 400⟩, [])
    else
      let model := create_model
      if pyLower (pyStrip (grade_question q)) = "exit" then
        (⟨Payload.answerPayload outOfDomainMsg, 200⟩, [])
      else
        match store with
        | none => (⟨Payload.errorPayload "Vector store is not ready", 503⟩, [])
        | some search =>
          let retrieved := search q
          let relevant := filterRelevant q retrieved
          if relevant = [] then
            (⟨Payload.answerPayload noRelevantMsg, 200⟩, [Effect.retrieve q])
          else
            let gen := generate_answer complete q relevant model
            (⟨Payload.answerPayload gen.1, 200⟩, Effect.retrieve q :: gen.2)

/-- A normalized text unit produced by document ingestion: extracted text
plus the knowledge source it came from. -/
structure TextUnit where
  source : String
  text : String
deriving DecidableEq

/-- A bounded-length slice of one TextUnit, carrying its provenance. -/
structure Segment where
  source : String
  text : String
deriving DecidableEq

/-- Modelled from the spec: the chunker used at build_vector_store is the
langchain RecursiveCharacterTextSplitter, a third-party library whose code
is not part of this repository; the spec requires only a pure deterministic
splitter whose segments never exceed the configured maximum and with
configured overlap 0.  This worker cuts consecutive chunks of at most c+1
characters; the fuel argument (instantiated with the length of the text)
makes the recursion structural. -/
def splitTextGo (c : Nat) : Nat → List Char → List (List Char)
  | 0, _ => []
  | _ + 1, [] => []
  | fuel + 1, x :: xs => (x :: xs.take c) :: splitTextGo c fuel (xs.drop c)

/-- Modelled from the spec: split one text into consecutive chunks of at
most chunkSize characters, deterministically and with no overlap. -/
def splitText (chunkSize : Nat) (s : List Char) : List (List Char) :=
  splitTextGo (chunkSize - 1) s.length s

/-- Modelled from the spec: split_documents applies the splitter to every
ingested document independently, so no segment ever spans two documents;
each produced segment keeps the provenance of the document it was cut
from.  The configuration at build_vector_store is chunk_size=250,
chunk_overlap=0. -/
def split_documents (chunkSize : Nat) (docs : List TextUnit) : List Segment :=
  docs.flatMap (fun d =>
    (splitText chunkSize d.text.data).map (fun cs => ⟨d.source, ⟨cs⟩⟩))

end ChatBot

namespace ChatBot

/-- The condition grade_question branches on, as a proposition. -/
theorem grade_question_continue_iff (q : String) :
    grade_question q = "continue" ↔
      ("software".data <:+: (pyLower q).data ∨ "coding".data <:+: (pyLower q).data ∨
        "interview".data <:+: (pyLower q).data) := by
  simp only [grade_question, containsSubstr]
  split
  next h =>
    simp only [Bool.or_eq_true, decide_eq_true_eq, or_assoc] at h
    exact iff_of_true rfl h
  next h =>
    simp only [Bool.or_eq_true, decide_eq_true_eq, or_assoc] at h
    exact iff_of_false (by decide) h

/-- grade_question answers "exit" exactly when no keyword occurs. -/
theorem grade_question_exit_iff (q : String) :
    grade_question q = "exit" ↔
      ¬ ("software".data <:+: (pyLower q).data ∨ "coding".data <:+: (pyLower q).data ∨
        "interview".data <:+: (pyLower q).data) := by
  simp only [grade_question, containsSubstr]
  split
  next h =>
    simp only [Bool.or_eq_true, decide_eq_true_eq, or_assoc] at h
    exact iff_of_false (by decide) (not_not_intro h)
  next h =>
    simp only [Bool.or_eq_true, decide_eq_true_eq, or_assoc] at h
    exact iff_of_true rfl h

/-- A question graded "continue" is not the empty string. -/
theorem grade_question_continue_ne_empty (q : String)
    (hg : grade_question q = "continue") : ¬ q = "" := by
  intro hq
  rw [hq] at hg
  exact absurd hg (by decide)

/-- The condition grade_document branches on, as a proposition. -/
theorem grade_document_yes_iff (q : String) (d : Doc) :
    grade_document q d = "yes" ↔
      ∃ w ∈ pySplit (pyLower q), w.data <:+: (pyLower d.page_content).data := by
  simp only [grade_document, containsSubstr]
  split
  next h =>
    simp only [List.any_eq_true, decide_eq_true_eq] at h
    exact iff_of_true rfl h
  next h =>
    simp only [List.any_eq_true, decide_eq_true_eq] at h
    exact iff_of_false (by decide) h

/-- grade_document answers "no" exactly when no token occurs. -/
theorem grade_document_no_iff (q : String) (d : Doc) :
    grade_document q d = "no" ↔
      ¬ ∃ w ∈ pySplit (pyLower q), w.data <:+: (pyLower d.page_content).data := by
  simp only [grade_document, containsSubstr]
  split
  next h =>
    simp only [List.any_eq_true, decide_eq_true_eq] at h
    exact iff_of_false (by decide) (not_not_intro h)
  next h =>
    simp only [List.any_eq_true, decide_eq_true_eq] at h
    exact iff_of_true rfl h

/-- The strip-then-lowercase normalization the handler applies to the
document grade changes nothing: the grade is already "yes" or "no". -/
theorem grade_document_norm (q : String) (d : Doc) :
    pyLower (pyStrip (grade_document q d)) = "yes" ↔ grade_document q d = "yes" := by
  simp only [grade_document, containsSubstr]
  split <;> decide

/-- Unrolling of the filtering fold: the loop appends exactly the documents
graded "yes" after the initial accumulator. -/
theorem filterRelevant_go (q : String) (l : List Doc) : ∀ acc : List Doc,
    l.foldl
        (fun acc doc =>
          if pyLower (pyStrip (grade_document q doc)) = "yes" then acc ++ [doc]
          else acc)
        acc
      = acc ++ l.filter (fun doc => decide (grade_document q doc = "yes")) := by
  induction l with
  | nil => simp
  | cons x xs ih =>
    intro acc
    by_cases h : grade_document q x = "yes"
    · rw [List.foldl_cons, if_pos ((grade_document_norm q x).mpr h), ih]
      simp [h, List.filter_cons]
    · rw [List.foldl_cons, if_neg (fun hc => h ((grade_document_norm q x).mp hc)), ih]
      simp [h, List.filter_cons]

/-- The filtering loop of the handler is List.filter by the document gate. -/
theorem filterRelevant_eq_filter (q : String) (l : List Doc) :
    filterRelevant q l = l.filter (fun doc => decide (grade_document q doc = "yes")) := by
  unfold filterRelevant
  rw [filterRelevant_go]
  simp

/-- Every chunk the splitter worker produces has at most c+1 characters. -/
theorem splitTextGo_chunk_length (c : Nat) :
    ∀ (fuel : Nat) (s : List Char), ∀ t ∈ splitTextGo c fuel s, t.length ≤ c + 1 := by
  intro fuel
  induction fuel with
  | zero => intro s t ht; simp [splitTextGo] at ht
  | succ n ih =>
    intro s t ht
    match s with
    | [] => simp [splitTextGo] at ht
    | x :: xs =>
      simp only [splitTextGo, List.mem_cons] at ht
      rcases ht with rfl | ht
      · simp only [List.length_cons, List.length_take]
        omega
      · exact ih (xs.drop c) t ht

/-- Every chunk the splitter worker produces occurs contiguously inside the
input text. -/
theorem splitTextGo_chunk_infix (c : Nat) :
    ∀ (fuel : Nat) (s : List Char), ∀ t ∈ splitTextGo c fuel s, t <:+: s := by
  intro fuel
  induction fuel with
  | zero => intro s t ht; simp [splitTextGo] at ht
  | succ n ih =>
    intro s t ht
    match s with
    | [] => simp [splitTextGo] at ht
    | x :: xs =>
      simp only [splitTextGo, List.mem_cons] at ht
      rcases ht with rfl | ht
      · exact ⟨[], xs.drop c, by simp [List.take_append_drop]⟩
      · have h1 : t <:+: xs.drop c := ih (xs.drop c) t ht
        have h2 : xs.drop c <:+: x :: xs :=
          ⟨x :: xs.take c, [], by simp [List.take_append_drop]⟩
        exact h1.trans h2

/-- C1: the query gate returns "continue" exactly when the lowercased
question contains at least one of the substrings "software", "coding",
"interview", and returns "exit" exactly when it contains none of them; it
is a pure function of the question text alone. -/
theorem grade_question_gate_spec (q : String) :
    (grade_question q = "continue" ↔
      ("software".data <:+: (pyLower q).data ∨ "coding".data <:+: (pyLower q).data ∨
        "interview".data <:+: (pyLower q).data)) ∧
    (grade_question q = "exit" ↔
      ¬ ("software".data <:+: (pyLower q).data ∨ "coding".data <:+: (pyLower q).data ∨
        "interview".data <:+: (pyLower q).data)) :=
  ⟨grade_question_continue_iff q, grade_question_exit_iff q⟩

/-- Witness for C1 at a concrete in-domain question. -/
theorem grade_question_gate_spec_witness :
    grade_question "Mock CODING round" = "continue" :=
  (grade_question_gate_spec "Mock CODING round").1.mpr (by decide)

/-- C2: the document gate returns "yes" exactly when some whitespace token
of the lowercased question occurs as a substring of the lowercased segment
text, and returns "no" otherwise. -/
theorem grade_document_gate_spec (q : String) (d : Doc) :
    (grade_document q d = "yes" ↔
      ∃ w ∈ pySplit (pyLower q), w.data <:+: (pyLower d.page_content).data) ∧
    (grade_document q d = "no" ↔
      ¬ ∃ w ∈ pySplit (pyLower q), w.data <:+: (pyLower d.page_content).data) :=
  ⟨grade_document_yes_iff q d, grade_document_no_iff q d⟩

/-- Witness for C2 at a concrete question and segment. -/
theorem grade_document_gate_spec_witness :
    grade_document "Coding tips" ⟨"all about CODING"⟩ = "yes" :=
  (grade_document_gate_spec "Coding tips" ⟨"all about CODING"⟩).1.mpr (by decide)

/-- C3: when the question passes the query gate but the vector store slot is
still the unbuilt sentinel, the handler returns the server-error payload
about the store and performs no retrieval or generation (empty trace). -/
theorem chat_vector_store_not_ready (complete : String → Nat → String)
    (q : String) (hg : grade_question q = "continue") :
    chat none complete (some q) =
      (⟨Payload.errorPayload "Vector store is not ready", 503⟩, []) := by
  have hq : ¬ q = "" := grade_question_continue_ne_empty q hg
  simp only [chat]
  rw [if_neg hq, hg, if_neg (by decide : ¬ pyLower (pyStrip "continue") = "exit")]

/-- Witness for C3 at a concrete in-domain question. -/
theorem chat_vector_store_not_ready_witness :
    chat none (fun _ _ => "") (some "software question") =
      (⟨Payload.errorPayload "Vector store is not ready", 503⟩, []) :=
  chat_vector_store_not_ready (fun _ _ => "") "software question" (by decide)

/-- C4: a missing question or an empty question is answered by the
client-error payload with no retrieval or generation (empty trace),
whatever the store and completion capability are. -/
theorem chat_missing_or_empty_question (store : Option (String → List Doc))
    (complete : String → Nat → String) :
    chat store complete none =
      (⟨Payload.errorPayload "No question provided", 400⟩, []) ∧
    chat store complete (some "") =
      (⟨Payload.errorPayload "No question provided", 400⟩, []) := by
  constructor
  · rfl
  · simp [chat]

/-- Witness for C4 at a concrete request. -/
theorem chat_missing_or_empty_question_witness :
    chat none (fun _ _ => "") (some "") =
      (⟨Payload.errorPayload "No question provided", 400⟩, []) :=
  (chat_missing_or_empty_question none (fun _ _ => "")).2

/-- C5: when retrieval returns documents and the document gate keeps none of
them, the handler returns the fixed advisory payload and its trace holds the
retrieval only: the completion capability is never invoked. -/
theorem chat_no_relevant_docs (search : String → List Doc)
    (complete : String → Nat → String) (q : String)
    (hg : grade_question q = "continue") (_hr : ¬ search q = [])
    (hf : filterRelevant q (search q) = []) :
    chat (some search) complete (some q) =
      (⟨Payload.answerPayload noRelevantMsg, 200⟩, [Effect.retrieve q]) ∧
    ∀ p t, Effect.complete p t ∉ (chat (some search) complete (some q)).2 := by
  have hq : ¬ q = "" := grade_question_continue_ne_empty q hg
  have hmain : chat (some search) complete (some q) =
      (⟨Payload.answerPayload noRelevantMsg, 200⟩, [Effect.retrieve q]) := by
    simp only [chat]
    rw [if_neg hq, hg, if_neg (by decide : ¬ pyLower (pyStrip "continue") = "exit"),
      if_pos hf]
  refine ⟨hmain, ?_⟩
  intro p t hmem
  rw [hmain] at hmem
  simp at hmem

/-- Witness for C5: one retrieved segment sharing no token with the
question. -/
theorem chat_no_relevant_docs_witness :
    chat (some (fun _ => [⟨"zzz"⟩])) (fun _ _ => "") (some "coding") =
      (⟨Payload.answerPayload noRelevantMsg, 200⟩, [Effect.retrieve "coding"]) :=
  (chat_no_relevant_docs (fun _ => [⟨"zzz"⟩]) (fun _ _ => "") "coding"
    (by decide) (by decide) (by decide)).1

/-- C6: a non-empty question containing none of the three keywords is
answered by exactly the fixed out-of-domain advisory payload, with an empty
trace (no retrieval, no generation), whatever the store is. -/
theorem chat_out_of_domain_short_circuit (store : Option (String → List Doc))
    (complete : String → Nat → String) (q : String) (hq : ¬ q = "")
    (hk : ¬ ("software".data <:+: (pyLower q).data ∨
      "coding".data <:+: (pyLower q).data ∨
      "interview".data <:+: (pyLower q).data)) :
    chat store complete (some q) =
      (⟨Payload.answerPayload outOfDomainMsg, 200⟩, []) := by
  have hg : grade_question q = "exit" := (grade_question_exit_iff q).mpr hk
  simp only [chat]
  rw [if_neg hq, hg, if_pos (by decide : pyLower (pyStrip "exit") = "exit")]

/-- Witness for C6 at the out-of-domain scenario question. -/
theorem chat_out_of_domain_short_circuit_witness :
    chat none (fun _ _ => "") (some "best pizza topping") =
      (⟨Payload.answerPayload outOfDomainMsg, 200⟩, []) :=
  chat_out_of_domain_short_circuit none (fun _ _ => "") "best pizza topping"
    (by decide) (by decide)

/-- C7: the answer generator invokes the completion capability exactly once,
with the single prompt made of the retained segments joined by blank lines,
the verbatim question, and the "Answer:" continuation marker, at the
temperature 0 the model was created with. -/
theorem generate_answer_prompt_spec (complete : String → Nat → String)
    (q : String) (ds : List Doc) (_h : ¬ ds = []) :
    generate_answer complete q ds create_model =
      (complete
        ("Using the following context, answer the question.\n\n" ++ "Context:\n" ++
          String.intercalate "\n\n" (ds.map (fun d => d.page_content)) ++ "\n\n" ++
          "Question: " ++ q ++ "\n" ++ "Answer:") 0,
       [Effect.complete
        ("Using the following context, answer the question.\n\n" ++ "Context:\n" ++
          String.intercalate "\n\n" (ds.map (fun d => d.page_content)) ++ "\n\n" ++
          "Question: " ++ q ++ "\n" ++ "Answer:") 0]) := rfl

/-- Witness for C7 with two retained segments. -/
theorem generate_answer_prompt_spec_witness :
    generate_answer (fun p _ => p) "coding" [⟨"alpha"⟩, ⟨"beta"⟩] create_model =
      ("Using the following context, answer the question.\n\nContext:\nalpha\n\nbeta\n\nQuestion: coding\nAnswer:",
       [Effect.complete
         "Using the following context, answer the question.\n\nContext:\nalpha\n\nbeta\n\nQuestion: coding\nAnswer:" 0]) := by
  rw [generate_answer_prompt_spec (fun p _ => p) "coding" [⟨"alpha"⟩, ⟨"beta"⟩]
    (by decide)]
  decide

/-- C8: the filtering loop produces exactly the subsequence of the retrieved
list whose members the document gate grades "yes", preserving order. -/
theorem filterRelevant_subsequence_spec (q : String) (l : List Doc) :
    filterRelevant q l =
      l.filter (fun doc => decide (grade_document q doc = "yes")) ∧
    (filterRelevant q l).Sublist l ∧
    ∀ d : Doc, d ∈ filterRelevant q l ↔ d ∈ l ∧ grade_document q d = "yes" := by
  refine ⟨filterRelevant_eq_filter q l, ?_, ?_⟩
  · rw [filterRelevant_eq_filter]
    exact List.filter_sublist l
  · intro d
    rw [filterRelevant_eq_filter]
    simp [List.mem_filter]

/-- Witness for C8: the gate keeps the matching segment and drops the
unrelated one. -/
theorem filterRelevant_subsequence_spec_witness :
    filterRelevant "coding" [⟨"all coding"⟩, ⟨"zzz"⟩] = [⟨"all coding"⟩] := by
  rw [(filterRelevant_subsequence_spec "coding" [⟨"all coding"⟩, ⟨"zzz"⟩]).1]
  decide

/-- C9: the modelled chunker is deterministic, its segments never exceed 250
characters at the configured chunk size 250, and every segment lies inside
the single source document it was cut from. -/
theorem chunker_spec (docs : List TextUnit) :
    split_documents 250 docs = split_documents 250 docs ∧
    (∀ seg ∈ split_documents 250 docs, seg.text.length ≤ 250) ∧
    (∀ seg ∈ split_documents 250 docs, ∃ d ∈ docs,
      seg.source = d.source ∧ seg.text.data <:+: d.text.data) := by
  refine ⟨rfl, ?_, ?_⟩
  · intro seg hseg
    simp only [split_documents, List.mem_flatMap, List.mem_map] at hseg
    obtain ⟨d, hd, cs, hcs, rfl⟩ := hseg
    simp only [splitText] at hcs
    have hlen := splitTextGo_chunk_length (250 - 1) d.text.data.length d.text.data cs hcs
    show cs.length ≤ 250
    omega
  · intro seg hseg
    simp only [split_documents, List.mem_flatMap, List.mem_map] at hseg
    obtain ⟨d, hd, cs, hcs, rfl⟩ := hseg
    simp only [splitText] at hcs
    exact ⟨d, hd, rfl,
      splitTextGo_chunk_infix (250 - 1) d.text.data.length d.text.data cs hcs⟩

/-- Witness for C9: a short document is kept whole as one in-bound segment. -/
theorem chunker_spec_witness :
    (Segment.mk "src" "hello").text.length ≤ 250 ∧
    Segment.mk "src" "hello" ∈ split_documents 250 [TextUnit.mk "src" "hello"] :=
  ⟨(chunker_spec [TextUnit.mk "src" "hello"]).2.1 (Segment.mk "src" "hello")
    (by decide), by decide⟩

/-- C10: the query gate is evaluated before the index-readiness check: a
non-empty question the gate rejects is answered with the out-of-domain
advisory payload even when the store is the unbuilt sentinel, never with the
store-not-ready error. -/
theorem chat_gate_precedes_readiness (complete : String → Nat → String)
    (q : String) (hq : ¬ q = "") (hg : grade_question q = "exit") :
    (chat none complete (some q)).1.payload = Payload.answerPayload outOfDomainMsg ∧
    ¬ (chat none complete (some q)).1 =
        ⟨Payload.errorPayload "Vector store is not ready", 503⟩ := by
  have hmain : chat none complete (some q) =
      (⟨Payload.answerPayload outOfDomainMsg, 200⟩, []) := by
    simp only [chat]
    rw [if_neg hq, hg, if_pos (by decide : pyLower (pyStrip "exit") = "exit")]
  rw [hmain]
  exact ⟨rfl, by decide⟩

/-- Witness for C10 at a concrete out-of-domain question with no store. -/
theorem chat_gate_precedes_readiness_witness :
    (chat none (fun _ _ => "") (some "hello")).1.payload =
      Payload.answerPayload outOfDomainMsg :=
  (chat_gate_precedes_readiness (fun _ _ => "") "hello" (by decide) (by decide)).1

end ChatBot
